import Mathlib

/-!
Shallow embedding of the two AWS Lambda handlers of this repository:

* src/lambda-start-stop-ec2/lambda.py - an EC2 instance scheduler that
  starts or stops all instances tagged Scheduled=OfficeHours, driven by a
  trigger event carrying an Action field;
* src/rds-cross-region-copy/lambda.py - an RDS snapshot replicator that
  issues a cross-region copy-snapshot request for every resource named in
  the incoming event.

Each handler is embedded as a pure function of its inputs (the trigger
event, the environment configuration, and the relevant provider response)
returning the trace of provider API calls it issues, the log lines it
prints, and how the invocation terminates.
-/

namespace StartStopEc2

/-- The EC2 control-plane calls the scheduler can issue.  The describe
call carries its filter list; start/stop/wait calls carry the instance id
list passed to boto3. -/
inductive Ec2Call where
  | describeInstances (filters : List (String × List String))
  | startInstances (instanceIds : List String)
  | stopInstances (instanceIds : List String)
  | waitInstanceRunning (instanceIds : List String)
  | waitInstanceStopped (instanceIds : List String)
deriving DecidableEq, Repr

/-- One log line printed by the handler.  `eventDump`/`contextDump` stand
for the opaque `print(event)` / `print(context)` at the top of the
handler; every other print is a concrete string. -/
inductive LogLine where
  | eventDump
  | contextDump
  | msg (s : String)
deriving DecidableEq, Repr

/-- How the Python invocation terminates: a normal return, the clean
`exit()` taken when no tagged instance is found, or an uncaught KeyError
raised by `event['Action']` when the event has no Action field. -/
inductive Outcome where
  | normal
  | cleanExit
  | keyError
deriving DecidableEq, Repr

/-- The scheduler trigger event.  Only the `Action` entry of the payload
is ever read; `none` models a payload with no Action key, in which case
`event['Action']` raises KeyError. -/
structure SchedulerEvent where
  Action : Option String
deriving DecidableEq, Repr

/-- One EC2 instance record of a describe-instances response; only the
InstanceId field is read. -/
structure Instance where
  InstanceId : String
deriving DecidableEq, Repr

/-- One reservation record of a describe-instances response. -/
structure Reservation where
  Instances : List Instance
deriving DecidableEq, Repr

/-- The describe-instances response returned by the provider for the tag
filter. -/
structure DescribeResponse where
  Reservations : List Reservation
deriving DecidableEq, Repr

def TAG_KEY : String := "Scheduled"

def TAG_VALUE : String := "OfficeHours"

/-- Model of `custom_filter` from lambda.py: a single filter
`{Name: 'tag:Scheduled', Values: ['OfficeHours']}`. -/
def custom_filter : List (String × List String) :=
  [("tag:" ++ TAG_KEY, [TAG_VALUE])]

/-- The nested loop of lambda.py lines 36-39: flatten the response to the
list of instance ids, in order. -/
def collectInstanceIds (response : DescribeResponse) : List String :=
  (response.Reservations.map (fun r => r.Instances.map (fun i => i.InstanceId))).flatten

/-- Model of `start_instances` from lambda.py: the calls issued and lines printed
(start request, then wait for the running state). -/
def start_instances (instance_ids : List String) : List Ec2Call × List LogLine :=
  ([Ec2Call.startInstances instance_ids, Ec2Call.waitInstanceRunning instance_ids],
   [LogLine.msg "Starting instances...",
    LogLine.msg "Waiting for instances to start...",
    LogLine.msg "Instances started successfully"])

/-- Model of `stop_instances` from lambda.py: the calls issued and lines printed
(stop request, then wait for the stopped state). -/
def stop_instances (instance_ids : List String) : List Ec2Call × List LogLine :=
  ([Ec2Call.stopInstances instance_ids, Ec2Call.waitInstanceStopped instance_ids],
   [LogLine.msg "Stopping instances...",
    LogLine.msg "Waiting for instances to stop...",
    LogLine.msg "Instances stopped successfully"])

/-- The result of one scheduler invocation: the EC2 calls issued in
order, the log lines printed in order, and the termination outcome. -/
structure SchedulerResult where
  calls : List Ec2Call
  logs : List LogLine
  outcome : Outcome
deriving DecidableEq, Repr

/-- Model of `lambda_handler` from src/lambda-start-stop-ec2/lambda.py, as a pure
function of the trigger event and the provider's describe-instances
response.  It prints the event and context, issues the describe call,
flattens the ids; if none are found it logs and exits cleanly; otherwise
it logs the ids and dispatches on `event['Action']` (raising KeyError if
the key is absent): Start and Stop run the respective helper, anything
else logs the unknown action. -/
def lambda_handler (event : SchedulerEvent) (response : DescribeResponse) :
    SchedulerResult :=
  let logs0 : List LogLine := [LogLine.eventDump, LogLine.contextDump]
  let calls0 : List Ec2Call := [Ec2Call.describeInstances custom_filter]
  let instance_ids := collectInstanceIds response
  if instance_ids.isEmpty then
    { calls := calls0
      logs := logs0 ++
        [LogLine.msg ("Found no instance ids with tag " ++ TAG_KEY ++ "=" ++ TAG_VALUE)]
      outcome := Outcome.cleanExit }
  else
    let logs1 := logs0 ++
      [LogLine.msg ("Found instance ids " ++ String.intercalate "," instance_ids ++
        " with tag " ++ TAG_KEY ++ "=" ++ TAG_VALUE)]
    match event.Action with
    | none => { calls := calls0, logs := logs1, outcome := Outcome.keyError }
    | some a =>
      if a = "Start" then
        { calls := calls0 ++ (start_instances instance_ids).1
          logs := logs1 ++ (start_instances instance_ids).2
          outcome := Outcome.normal }
      else if a = "Stop" then
        { calls := calls0 ++ (stop_instances instance_ids).1
          logs := logs1 ++ (stop_instances instance_ids).2
          outcome := Outcome.normal }
      else
        { calls := calls0
          logs := logs1 ++ [LogLine.msg ("Unknown action " ++ a ++ " provided by event.")]
          outcome := Outcome.normal }

/-- Predicate: the call is a start request. -/
def isStartCall : Ec2Call → Bool
  | Ec2Call.startInstances _ => true
  | _ => false

/-- Predicate: the call is a stop request. -/
def isStopCall : Ec2Call → Bool
  | Ec2Call.stopInstances _ => true
  | _ => false

/-- Predicate: the call is a wait-for-running call. -/
def isWaitRunningCall : Ec2Call → Bool
  | Ec2Call.waitInstanceRunning _ => true
  | _ => false

/-- Predicate: the call is a wait-for-stopped call. -/
def isWaitStoppedCall : Ec2Call → Bool
  | Ec2Call.waitInstanceStopped _ => true
  | _ => false

/-- Predicate: the call is a describe-instances (tag lookup) call. -/
def isDescribeCall : Ec2Call → Bool
  | Ec2Call.describeInstances _ => true
  | _ => false

end StartStopEc2

namespace RdsCrossRegionCopy

/-- The three environment variables read by
src/rds-cross-region-copy/lambda.py, fixed per deployment. -/
structure ReplicatorEnv where
  SOURCE_REGION : String
  DESTINATION_REGION : String
  DESTINATION_REGION_KMS_KEY_ID : String
deriving DecidableEq, Repr

/-- The replicator trigger event; only the `resources` list is read. -/
structure ReplicatorEvent where
  resources : List String
deriving DecidableEq, Repr

/-- One Key/Value tag passed to the copy request. -/
structure Tag where
  Key : String
  Value : String
deriving DecidableEq, Repr

/-- The parameters of one `copy_db_snapshot` request as issued by the
handler. -/
structure CopyDbSnapshotRequest where
  SourceDBSnapshotIdentifier : String
  TargetDBSnapshotIdentifier : String
  Tags : List Tag
  SourceRegion : String
  KmsKeyId : String
deriving DecidableEq, Repr

/-- Python's `s.split(sep)` for a one-character separator: split the
character sequence of `s` at every occurrence of `sep`, keeping empty
segments (so the result always has one more entry than there are
separator occurrences, and is never empty). -/
def pySplit (s : String) (sep : Char) : List String :=
  (s.data.splitOn sep).map String.mk

/-- The body of the replicator's per-record loop (lambda.py lines 8-22):
split the resource name on colons, take the last segment (`arn[-1]`) as
the snapshot name, and build the copy request with the derived
`copy-<name>` target, the source_region tag, and the environment's
regions and key. -/
def copy_request (env : ReplicatorEnv) (snapshot_arn : String) :
    CopyDbSnapshotRequest :=
  let arn := pySplit snapshot_arn ':'
  let snapshot_name := arn.getLastD ""
  { SourceDBSnapshotIdentifier := snapshot_arn
    TargetDBSnapshotIdentifier := "copy-" ++ snapshot_name
    Tags := [{ Key := "source_region", Value := env.SOURCE_REGION }]
    SourceRegion := env.SOURCE_REGION
    KmsKeyId := env.DESTINATION_REGION_KMS_KEY_ID }

/-- Model of `lambda_handler` from src/rds-cross-region-copy/lambda.py when every
provider call succeeds: one copy request per entry of the resources
list, in list order. -/
def lambda_handler (env : ReplicatorEnv) (event : ReplicatorEvent) :
    List CopyDbSnapshotRequest :=
  event.resources.map (copy_request env)

/-- The same loop when the provider may fail a call: `raises k` says the
k-th `copy_db_snapshot` call (0-based, counted over the loop) raises.
Returns the requests actually issued, in order, and `some k` when the
k-th call raised (the exception propagates uncaught, so no later entry
is processed), `none` when the loop completed. -/
def run_loop (env : ReplicatorEnv) (raises : Nat → Bool) :
    List String → Nat → List CopyDbSnapshotRequest × Option Nat
  | [], _ => ([], none)
  | snapshot_arn :: rest, k =>
    let req := copy_request env snapshot_arn
    if raises k then
      ([req], some k)
    else
      let tail := run_loop env raises rest (k + 1)
      (req :: tail.1, tail.2)

/-- Model of `lambda_handler` with a possibly failing provider. -/
def lambda_handler_exc (env : ReplicatorEnv) (raises : Nat → Bool)
    (event : ReplicatorEvent) : List CopyDbSnapshotRequest × Option Nat :=
  run_loop env raises event.resources 0

end RdsCrossRegionCopy




/-! ### Helper lemmas about list splitting

Python's `split` on a one-character separator is `List.splitOn` on the
character sequence; these lemmas characterise it on strings that do or
do not contain the separator. -/

theorem splitOnP_append_sep {α : Type} (p : α → Bool) (c : α) (hc : p c = true)
    (l r : List α) :
    (l ++ c :: r).splitOnP p = l.splitOnP p ++ r.splitOnP p := by
  induction l with
  | nil => simp [List.splitOnP_cons, hc]
  | cons x xs ih =>
    rw [List.cons_append, List.splitOnP_cons, List.splitOnP_cons, ih]
    by_cases hx : p x = true
    · simp [hx]
    · obtain ⟨b, L, hbl⟩ := List.exists_cons_of_ne_nil (List.splitOnP_ne_nil p xs)
      simp [hx, hbl]

theorem splitOn_append_sep {α : Type} [DecidableEq α] (c : α) (l r : List α) :
    (l ++ c :: r).splitOn c = l.splitOn c ++ r.splitOn c := by
  simpa [List.splitOn] using splitOnP_append_sep (fun x => x == c) c (by simp) l r

theorem splitOn_eq_single_of_not_mem {α : Type} [DecidableEq α] {c : α} {l : List α}
    (h : c ∉ l) : l.splitOn c = [l] := by
  refine List.splitOnP_eq_single _ _ (fun x hx => ?_)
  simp only [beq_iff_eq]
  intro hxc
  exact h (hxc ▸ hx)

namespace RdsCrossRegionCopy

theorem pySplit_no_sep {s : String} {c : Char} (h : c ∉ s.data) :
    pySplit s c = [s] := by
  simp [pySplit, splitOn_eq_single_of_not_mem h]

theorem pySplit_last_segment (pre name : String) (h : ':' ∉ name.data) :
    (pySplit (pre ++ ":" ++ name) ':').getLastD "" = name := by
  have h1 : (":" : String).data = [':'] := rfl
  have hdata : (pre ++ ":" ++ name).data = pre.data ++ ':' :: name.data := by
    rw [String.data_append, String.data_append, h1, List.append_assoc]
    rfl
  rw [pySplit, hdata, splitOn_append_sep, splitOn_eq_single_of_not_mem h,
    List.map_append]
  exact List.getLastD_concat _ _ _

end RdsCrossRegionCopy

/-! ### Claim theorems for the EC2 scheduler -/

namespace StartStopEc2

lemma isEmpty_false_of_ne_nil {l : List String} (h : l ≠ []) : l.isEmpty = false := by
  simp [List.isEmpty_iff, h]

/-- C1: for every trigger event whose Action field equals "Start", when the
tag lookup for Scheduled=OfficeHours returns a non-empty id list, the
handler issues exactly one start request with exactly the looked-up ids,
followed by exactly one wait-for-running call with the same ids, and no
stop or wait-for-stopped call. -/
theorem spec_C1 (event : SchedulerEvent) (response : DescribeResponse)
    (hA : event.Action = some "Start")
    (hne : collectInstanceIds response ≠ []) :
    (lambda_handler event response).calls =
      [Ec2Call.describeInstances custom_filter,
       Ec2Call.startInstances (collectInstanceIds response),
       Ec2Call.waitInstanceRunning (collectInstanceIds response)] ∧
    (lambda_handler event response).outcome = Outcome.normal ∧
    (lambda_handler event response).calls.countP isStartCall = 1 ∧
    (lambda_handler event response).calls.countP isWaitRunningCall = 1 ∧
    (lambda_handler event response).calls.countP isStopCall = 0 ∧
    (lambda_handler event response).calls.countP isWaitStoppedCall = 0 := by
  simp [lambda_handler, hA, isEmpty_false_of_ne_nil hne, start_instances,
    List.countP_cons, isStartCall, isWaitRunningCall, isStopCall, isWaitStoppedCall,
    isDescribeCall]

/-- Witness for C1: the spec scenario with ids i-111 and i-222. -/
theorem spec_C1_witness :
    (lambda_handler ⟨some "Start"⟩ ⟨[⟨[⟨"i-111"⟩, ⟨"i-222"⟩]⟩]⟩).calls =
      [Ec2Call.describeInstances custom_filter,
       Ec2Call.startInstances (collectInstanceIds ⟨[⟨[⟨"i-111"⟩, ⟨"i-222"⟩]⟩]⟩),
       Ec2Call.waitInstanceRunning (collectInstanceIds ⟨[⟨[⟨"i-111"⟩, ⟨"i-222"⟩]⟩]⟩)] ∧
    (lambda_handler ⟨some "Start"⟩ ⟨[⟨[⟨"i-111"⟩, ⟨"i-222"⟩]⟩]⟩).outcome = Outcome.normal ∧
    (lambda_handler ⟨some "Start"⟩ ⟨[⟨[⟨"i-111"⟩, ⟨"i-222"⟩]⟩]⟩).calls.countP isStartCall = 1 ∧
    (lambda_handler ⟨some "Start"⟩ ⟨[⟨[⟨"i-111"⟩, ⟨"i-222"⟩]⟩]⟩).calls.countP isWaitRunningCall = 1 ∧
    (lambda_handler ⟨some "Start"⟩ ⟨[⟨[⟨"i-111"⟩, ⟨"i-222"⟩]⟩]⟩).calls.countP isStopCall = 0 ∧
    (lambda_handler ⟨some "Start"⟩ ⟨[⟨[⟨"i-111"⟩, ⟨"i-222"⟩]⟩]⟩).calls.countP isWaitStoppedCall = 0 :=
  spec_C1 ⟨some "Start"⟩ ⟨[⟨[⟨"i-111"⟩, ⟨"i-222"⟩]⟩]⟩ rfl (by decide)

/-- C5: for every trigger event whose Action field equals "Stop", when the
tag lookup returns a non-empty id list, the handler issues exactly one
stop request with exactly the looked-up ids, followed by exactly one
wait-for-stopped call with the same ids, and no start or wait-for-running
call. -/
theorem spec_C5 (event : SchedulerEvent) (response : DescribeResponse)
    (hA : event.Action = some "Stop")
    (hne : collectInstanceIds response ≠ []) :
    (lambda_handler event response).calls =
      [Ec2Call.describeInstances custom_filter,
       Ec2Call.stopInstances (collectInstanceIds response),
       Ec2Call.waitInstanceStopped (collectInstanceIds response)] ∧
    (lambda_handler event response).outcome = Outcome.normal ∧
    (lambda_handler event response).calls.countP isStopCall = 1 ∧
    (lambda_handler event response).calls.countP isWaitStoppedCall = 1 ∧
    (lambda_handler event response).calls.countP isStartCall = 0 ∧
    (lambda_handler event response).calls.countP isWaitRunningCall = 0 := by
  simp [lambda_handler, hA, isEmpty_false_of_ne_nil hne, stop_instances,
    List.countP_cons, isStartCall, isWaitRunningCall, isStopCall, isWaitStoppedCall,
    isDescribeCall]

/-- Witness for C5: ids i-111 and i-222 with Action "Stop". -/
theorem spec_C5_witness :
    (lambda_handler ⟨some "Stop"⟩ ⟨[⟨[⟨"i-111"⟩, ⟨"i-222"⟩]⟩]⟩).calls =
      [Ec2Call.describeInstances custom_filter,
       Ec2Call.stopInstances (collectInstanceIds ⟨[⟨[⟨"i-111"⟩, ⟨"i-222"⟩]⟩]⟩),
       Ec2Call.waitInstanceStopped (collectInstanceIds ⟨[⟨[⟨"i-111"⟩, ⟨"i-222"⟩]⟩]⟩)] ∧
    (lambda_handler ⟨some "Stop"⟩ ⟨[⟨[⟨"i-111"⟩, ⟨"i-222"⟩]⟩]⟩).outcome = Outcome.normal ∧
    (lambda_handler ⟨some "Stop"⟩ ⟨[⟨[⟨"i-111"⟩, ⟨"i-222"⟩]⟩]⟩).calls.countP isStopCall = 1 ∧
    (lambda_handler ⟨some "Stop"⟩ ⟨[⟨[⟨"i-111"⟩, ⟨"i-222"⟩]⟩]⟩).calls.countP isWaitStoppedCall = 1 ∧
    (lambda_handler ⟨some "Stop"⟩ ⟨[⟨[⟨"i-111"⟩, ⟨"i-222"⟩]⟩]⟩).calls.countP isStartCall = 0 ∧
    (lambda_handler ⟨some "Stop"⟩ ⟨[⟨[⟨"i-111"⟩, ⟨"i-222"⟩]⟩]⟩).calls.countP isWaitRunningCall = 0 :=
  spec_C5 ⟨some "Stop"⟩ ⟨[⟨[⟨"i-111"⟩, ⟨"i-222"⟩]⟩]⟩ rfl (by decide)

/-- C3: for every trigger event, if the tag lookup returns zero instance
ids, the handler issues no start, stop, or wait call (its only call is the
tag lookup itself) and the invocation terminates cleanly via the no-op
exit path, not an error. -/
theorem spec_C3 (event : SchedulerEvent) (response : DescribeResponse)
    (hempty : collectInstanceIds response = []) :
    (lambda_handler event response).calls = [Ec2Call.describeInstances custom_filter] ∧
    (lambda_handler event response).outcome = Outcome.cleanExit ∧
    (lambda_handler event response).calls.countP isStartCall = 0 ∧
    (lambda_handler event response).calls.countP isStopCall = 0 ∧
    (lambda_handler event response).calls.countP isWaitRunningCall = 0 ∧
    (lambda_handler event response).calls.countP isWaitStoppedCall = 0 := by
  simp [lambda_handler, hempty, List.countP_cons, isStartCall, isWaitRunningCall,
    isStopCall, isWaitStoppedCall, isDescribeCall]

/-- Witness for C3: the spec scenario of an empty lookup with Action
"Stop". -/
theorem spec_C3_witness :
    (lambda_handler ⟨some "Stop"⟩ ⟨[]⟩).calls = [Ec2Call.describeInstances custom_filter] ∧
    (lambda_handler ⟨some "Stop"⟩ ⟨[]⟩).outcome = Outcome.cleanExit ∧
    (lambda_handler ⟨some "Stop"⟩ ⟨[]⟩).calls.countP isStartCall = 0 ∧
    (lambda_handler ⟨some "Stop"⟩ ⟨[]⟩).calls.countP isStopCall = 0 ∧
    (lambda_handler ⟨some "Stop"⟩ ⟨[]⟩).calls.countP isWaitRunningCall = 0 ∧
    (lambda_handler ⟨some "Stop"⟩ ⟨[]⟩).calls.countP isWaitStoppedCall = 0 :=
  spec_C3 ⟨some "Stop"⟩ ⟨[]⟩ rfl

end StartStopEc2

namespace StartStopEc2

/-- Counterexample to C6 as stated: with Action "Reboot" but an empty tag
lookup, the handler exits on the empty-lookup path before reading the
Action field, so it neither logs the unknown action nor returns
normally. -/
theorem spec_C6_counterexample :
    ¬ ((LogLine.msg ("Unknown action " ++ "Reboot" ++ " provided by event.")) ∈
        (lambda_handler ⟨some "Reboot"⟩ ⟨[]⟩).logs ∧
       (lambda_handler ⟨some "Reboot"⟩ ⟨[]⟩).outcome = Outcome.normal) := by
  decide

/-- C6 (amended): for every trigger event whose Action field is present
but equals neither "Start" nor "Stop", when the tag lookup returns a
non-empty id list, the handler logs the unrecognized value, issues no
state-changing call (its only call is the tag lookup), and returns
normally without signaling an error. -/
theorem spec_C6 (event : SchedulerEvent) (response : DescribeResponse) (a : String)
    (hA : event.Action = some a)
    (h1 : a ≠ "Start") (h2 : a ≠ "Stop")
    (hne : collectInstanceIds response ≠ []) :
    (lambda_handler event response).calls = [Ec2Call.describeInstances custom_filter] ∧
    (LogLine.msg ("Unknown action " ++ a ++ " provided by event.")) ∈
      (lambda_handler event response).logs ∧
    (lambda_handler event response).outcome = Outcome.normal ∧
    (lambda_handler event response).calls.countP isStartCall = 0 ∧
    (lambda_handler event response).calls.countP isStopCall = 0 ∧
    (lambda_handler event response).calls.countP isWaitRunningCall = 0 ∧
    (lambda_handler event response).calls.countP isWaitStoppedCall = 0 := by
  simp [lambda_handler, hA, isEmpty_false_of_ne_nil hne, h1, h2, List.countP_cons,
    isStartCall, isWaitRunningCall, isStopCall, isWaitStoppedCall]

/-- Witness for the amended C6: Action "Reboot" with one matched
instance. -/
theorem spec_C6_witness :
    (lambda_handler ⟨some "Reboot"⟩ ⟨[⟨[⟨"i-111"⟩]⟩]⟩).calls =
      [Ec2Call.describeInstances custom_filter] ∧
    (LogLine.msg ("Unknown action " ++ "Reboot" ++ " provided by event.")) ∈
      (lambda_handler ⟨some "Reboot"⟩ ⟨[⟨[⟨"i-111"⟩]⟩]⟩).logs ∧
    (lambda_handler ⟨some "Reboot"⟩ ⟨[⟨[⟨"i-111"⟩]⟩]⟩).outcome = Outcome.normal ∧
    (lambda_handler ⟨some "Reboot"⟩ ⟨[⟨[⟨"i-111"⟩]⟩]⟩).calls.countP isStartCall = 0 ∧
    (lambda_handler ⟨some "Reboot"⟩ ⟨[⟨[⟨"i-111"⟩]⟩]⟩).calls.countP isStopCall = 0 ∧
    (lambda_handler ⟨some "Reboot"⟩ ⟨[⟨[⟨"i-111"⟩]⟩]⟩).calls.countP isWaitRunningCall = 0 ∧
    (lambda_handler ⟨some "Reboot"⟩ ⟨[⟨[⟨"i-111"⟩]⟩]⟩).calls.countP isWaitStoppedCall = 0 :=
  spec_C6 ⟨some "Reboot"⟩ ⟨[⟨[⟨"i-111"⟩]⟩]⟩ "Reboot" rfl (by decide) (by decide) (by decide)

lemma calls_head_describe (e : SchedulerEvent) (r : DescribeResponse) :
    (lambda_handler e r).calls.countP isDescribeCall = 1 ∧
    (lambda_handler e r).calls.head? =
      some (Ec2Call.describeInstances custom_filter) := by
  obtain ⟨act⟩ := e
  cases act with
  | none =>
    by_cases hr : (collectInstanceIds r).isEmpty <;>
      simp [lambda_handler, hr, List.countP_cons, isDescribeCall]
  | some a =>
    by_cases hr : (collectInstanceIds r).isEmpty
    · simp [lambda_handler, hr, List.countP_cons, isDescribeCall]
    · by_cases hstart : a = "Start"
      · simp [lambda_handler, hr, hstart, start_instances, List.countP_cons,
          isDescribeCall]
      · by_cases hstop : a = "Stop"
        · simp [lambda_handler, hr, hstart, hstop, stop_instances, List.countP_cons,
            isDescribeCall]
        · simp [lambda_handler, hr, hstart, hstop, List.countP_cons, isDescribeCall]

/-- C9: for every scheduler invocation the tag lookup is issued exactly
once and is the first call issued; and when the event lacks an Action
field while the lookup returned at least one id, the invocation ends in
an uncaught KeyError having issued only the tag lookup — no start, stop,
or wait call. -/
theorem spec_C9 (event : SchedulerEvent) (response : DescribeResponse)
    (hA : event.Action = none)
    (hne : collectInstanceIds response ≠ []) :
    (∀ (e : SchedulerEvent) (r : DescribeResponse),
       (lambda_handler e r).calls.countP isDescribeCall = 1 ∧
       (lambda_handler e r).calls.head? =
         some (Ec2Call.describeInstances custom_filter)) ∧
    (lambda_handler event response).outcome = Outcome.keyError ∧
    (lambda_handler event response).calls = [Ec2Call.describeInstances custom_filter] := by
  refine ⟨calls_head_describe, ?_, ?_⟩ <;>
    simp [lambda_handler, hA, isEmpty_false_of_ne_nil hne]

/-- Witness for C9: an event with no Action key and one matched
instance. -/
theorem spec_C9_witness :
    (∀ (e : SchedulerEvent) (r : DescribeResponse),
       (lambda_handler e r).calls.countP isDescribeCall = 1 ∧
       (lambda_handler e r).calls.head? =
         some (Ec2Call.describeInstances custom_filter)) ∧
    (lambda_handler ⟨none⟩ ⟨[⟨[⟨"i-111"⟩]⟩]⟩).outcome = Outcome.keyError ∧
    (lambda_handler ⟨none⟩ ⟨[⟨[⟨"i-111"⟩]⟩]⟩).calls =
      [Ec2Call.describeInstances custom_filter] :=
  spec_C9 ⟨none⟩ ⟨[⟨[⟨"i-111"⟩]⟩]⟩ rfl (by decide)

end StartStopEc2

/-! ### Claim theorems for the RDS snapshot replicator -/

namespace RdsCrossRegionCopy

lemma mem_handler_fields (env : ReplicatorEnv) (event : ReplicatorEvent)
    (req : CopyDbSnapshotRequest) (h : req ∈ lambda_handler env event) :
    req.SourceRegion = env.SOURCE_REGION ∧
    req.KmsKeyId = env.DESTINATION_REGION_KMS_KEY_ID ∧
    req.Tags = [{ Key := "source_region", Value := env.SOURCE_REGION }] := by
  rw [lambda_handler] at h
  obtain ⟨arn, harn, rfl⟩ := List.mem_map.mp h
  exact ⟨rfl, rfl, rfl⟩

/-- C2: for every replicator event with N resource entries, exactly N
copy requests are issued, one per entry in list order, and every one of
them carries the configured source region both as the SourceRegion
parameter and as the value of the source_region tag. -/
theorem spec_C2 (env : ReplicatorEnv) (event : ReplicatorEvent) :
    (lambda_handler env event).length = event.resources.length ∧
    (∀ (i : Nat) (hi : i < event.resources.length),
      (lambda_handler env event)[i]? = some (copy_request env event.resources[i])) ∧
    (∀ req ∈ lambda_handler env event,
      req.SourceRegion = env.SOURCE_REGION ∧
      req.Tags = [{ Key := "source_region", Value := env.SOURCE_REGION }]) := by
  refine ⟨by simp [lambda_handler], ?_, ?_⟩
  · intro i hi
    simp [lambda_handler, List.getElem?_map, List.getElem?_eq_getElem hi]
  · intro req hreq
    have h := mem_handler_fields env event req hreq
    exact ⟨h.1, h.2.2⟩

/-- Witness for C2: the spec scenario, one snapshot resource with source
region us-east-1. -/
theorem spec_C2_witness :
    (lambda_handler ⟨"us-east-1", "eu-west-1", "key-1"⟩
        ⟨["arn:aws:rds:us-east-1:123:snapshot:nightly-2024"]⟩).length = 1 ∧
    (lambda_handler ⟨"us-east-1", "eu-west-1", "key-1"⟩
        ⟨["arn:aws:rds:us-east-1:123:snapshot:nightly-2024"]⟩)[0]? =
      some (copy_request ⟨"us-east-1", "eu-west-1", "key-1"⟩
        "arn:aws:rds:us-east-1:123:snapshot:nightly-2024") ∧
    (copy_request ⟨"us-east-1", "eu-west-1", "key-1"⟩
        "arn:aws:rds:us-east-1:123:snapshot:nightly-2024").SourceRegion = "us-east-1" ∧
    (copy_request ⟨"us-east-1", "eu-west-1", "key-1"⟩
        "arn:aws:rds:us-east-1:123:snapshot:nightly-2024").Tags =
      [{ Key := "source_region", Value := "us-east-1" }] := by
  have h := spec_C2 ⟨"us-east-1", "eu-west-1", "key-1"⟩
    ⟨["arn:aws:rds:us-east-1:123:snapshot:nightly-2024"]⟩
  have hmem := h.2.2 (copy_request ⟨"us-east-1", "eu-west-1", "key-1"⟩
      "arn:aws:rds:us-east-1:123:snapshot:nightly-2024")
    (List.mem_map_of_mem _ (List.mem_singleton.mpr rfl))
  exact ⟨h.1, h.2.1 0 (by decide), hmem.1, hmem.2⟩

/-- C8: across any two invocations sharing the same environment
configuration, every issued copy request carries the same SourceRegion,
KmsKeyId, and source_region tag — each equals the corresponding
environment value, independent of the event payload. -/
theorem spec_C8 (env : ReplicatorEnv) (ev1 ev2 : ReplicatorEvent)
    (req1 req2 : CopyDbSnapshotRequest)
    (h1 : req1 ∈ lambda_handler env ev1) (h2 : req2 ∈ lambda_handler env ev2) :
    req1.SourceRegion = req2.SourceRegion ∧
    req1.KmsKeyId = req2.KmsKeyId ∧
    req1.Tags = req2.Tags ∧
    req1.SourceRegion = env.SOURCE_REGION ∧
    req1.KmsKeyId = env.DESTINATION_REGION_KMS_KEY_ID ∧
    req1.Tags = [{ Key := "source_region", Value := env.SOURCE_REGION }] := by
  have a1 := mem_handler_fields env ev1 req1 h1
  have a2 := mem_handler_fields env ev2 req2 h2
  exact ⟨a1.1.trans a2.1.symm, a1.2.1.trans a2.2.1.symm, a1.2.2.trans a2.2.2.symm,
    a1.1, a1.2.1, a1.2.2⟩

/-- Witness for C8: two invocations with different events but the same
environment. -/
theorem spec_C8_witness :
    (copy_request ⟨"us-east-1", "eu-west-1", "key-1"⟩ "x:y").SourceRegion =
      (copy_request ⟨"us-east-1", "eu-west-1", "key-1"⟩ "z").SourceRegion ∧
    (copy_request ⟨"us-east-1", "eu-west-1", "key-1"⟩ "x:y").KmsKeyId =
      (copy_request ⟨"us-east-1", "eu-west-1", "key-1"⟩ "z").KmsKeyId ∧
    (copy_request ⟨"us-east-1", "eu-west-1", "key-1"⟩ "x:y").Tags =
      (copy_request ⟨"us-east-1", "eu-west-1", "key-1"⟩ "z").Tags ∧
    (copy_request ⟨"us-east-1", "eu-west-1", "key-1"⟩ "x:y").SourceRegion = "us-east-1" ∧
    (copy_request ⟨"us-east-1", "eu-west-1", "key-1"⟩ "x:y").KmsKeyId = "key-1" ∧
    (copy_request ⟨"us-east-1", "eu-west-1", "key-1"⟩ "x:y").Tags =
      [{ Key := "source_region", Value := "us-east-1" }] :=
  spec_C8 ⟨"us-east-1", "eu-west-1", "key-1"⟩ ⟨["x:y"]⟩ ⟨["z"]⟩
    (copy_request ⟨"us-east-1", "eu-west-1", "key-1"⟩ "x:y")
    (copy_request ⟨"us-east-1", "eu-west-1", "key-1"⟩ "z")
    (List.mem_map_of_mem _ (List.mem_singleton.mpr rfl))
    (List.mem_map_of_mem _ (List.mem_singleton.mpr rfl))

/-- C4: the derived destination identifier is always "copy-" followed by
the final colon-delimited segment of the resource name; in particular,
for a name of the form prefixPart:name with name colon-free, it is
"copy-" followed by name. -/
theorem spec_C4 (env : ReplicatorEnv) :
    (∀ (snapshot_arn : String),
      (copy_request env snapshot_arn).TargetDBSnapshotIdentifier =
        "copy-" ++ (pySplit snapshot_arn ':').getLastD "") ∧
    (∀ (head name : String), ':' ∉ name.data →
      (copy_request env (head ++ ":" ++ name)).TargetDBSnapshotIdentifier =
        "copy-" ++ name) := by
  refine ⟨fun snapshot_arn => rfl, fun head name h => ?_⟩
  show "copy-" ++ (pySplit (head ++ ":" ++ name) ':').getLastD "" = "copy-" ++ name
  rw [pySplit_last_segment head name h]

/-- Witness for C4: the spec scenario name, split as ...:nightly-2024. -/
theorem spec_C4_witness :
    (copy_request ⟨"us-east-1", "eu-west-1", "key-1"⟩
        ("arn:aws:rds:us-east-1:123:snapshot" ++ ":" ++ "nightly-2024")).TargetDBSnapshotIdentifier =
      "copy-" ++ "nightly-2024" :=
  (spec_C4 ⟨"us-east-1", "eu-west-1", "key-1"⟩).2
    "arn:aws:rds:us-east-1:123:snapshot" "nightly-2024" (by decide)

/-- C10: for a resource name containing no colon the derivation is still
defined — splitting yields the whole name as its own last segment — so
the destination identifier is "copy-" followed by the whole name, and a
copy request is still issued for the entry. -/
theorem spec_C10 (env : ReplicatorEnv) (event : ReplicatorEvent) (s : String)
    (hs : s ∈ event.resources) (hc : ':' ∉ s.data) :
    pySplit s ':' = [s] ∧
    (copy_request env s).TargetDBSnapshotIdentifier = "copy-" ++ s ∧
    copy_request env s ∈ lambda_handler env event := by
  have hsplit := pySplit_no_sep hc
  refine ⟨hsplit, ?_, ?_⟩
  · show "copy-" ++ (pySplit s ':').getLastD "" = "copy-" ++ s
    rw [hsplit]
    rfl
  · rw [lambda_handler]
    exact List.mem_map_of_mem _ hs

/-- Witness for C10: a colon-free resource name. -/
theorem spec_C10_witness :
    pySplit "no-colon" ':' = ["no-colon"] ∧
    (copy_request ⟨"us-east-1", "eu-west-1", "key-1"⟩ "no-colon").TargetDBSnapshotIdentifier =
      "copy-" ++ "no-colon" ∧
    copy_request ⟨"us-east-1", "eu-west-1", "key-1"⟩ "no-colon" ∈
      lambda_handler ⟨"us-east-1", "eu-west-1", "key-1"⟩ ⟨["no-colon"]⟩ :=
  spec_C10 ⟨"us-east-1", "eu-west-1", "key-1"⟩ ⟨["no-colon"]⟩ "no-colon"
    (List.mem_singleton.mpr rfl) (by decide)

end RdsCrossRegionCopy

namespace RdsCrossRegionCopy

lemma run_loop_first_raise (env : ReplicatorEnv) (raises : Nat → Bool) :
    ∀ (l : List String) (n k : Nat), k < l.length → raises (n + k) = true →
      (∀ j, j < k → raises (n + j) = false) →
      run_loop env raises l n = ((l.take (k + 1)).map (copy_request env), some (n + k)) := by
  intro l
  induction l with
  | nil =>
    intro n k hk
    exact absurd hk (by simp)
  | cons x rest ih =>
    intro n k hk hfail hbefore
    cases k with
    | zero =>
      have h0 : raises n = true := by simpa using hfail
      simp [run_loop, h0]
    | succ k =>
      have h0 : raises n = false := by simpa using hbefore 0 (Nat.succ_pos k)
      have hk1 : k < rest.length := by simpa using hk
      have hfail1 : raises (n + 1 + k) = true := by
        have harith : n + 1 + k = n + (k + 1) := by omega
        rw [harith]
        exact hfail
      have hbefore1 : ∀ j, j < k → raises (n + 1 + j) = false := by
        intro j hj
        have harith : n + 1 + j = n + (j + 1) := by omega
        rw [harith]
        exact hbefore (j + 1) (by omega)
      have hrec := ih (n + 1) k hk1 hfail1 hbefore1
      have harith2 : n + 1 + k = n + (k + 1) := by omega
      simp only [run_loop, h0, Bool.false_eq_true, if_false, hrec, List.take_succ_cons,
        List.map_cons, harith2]

/-- Counterexample to C7 as stated: with two resource entries and the
first copy call failing, no entry precedes the failing one, yet one copy
request was issued — the failing call itself. -/
theorem spec_C7_counterexample :
    (lambda_handler_exc ⟨"us-east-1", "eu-west-1", "key-1"⟩ (fun k => k == 0)
        ⟨["a", "b"]⟩).2 = some 0 ∧
    (lambda_handler_exc ⟨"us-east-1", "eu-west-1", "key-1"⟩ (fun k => k == 0)
        ⟨["a", "b"]⟩).1 ≠
      (List.take 0 ["a", "b"]).map (copy_request ⟨"us-east-1", "eu-west-1", "key-1"⟩) ∧
    (lambda_handler_exc ⟨"us-east-1", "eu-west-1", "key-1"⟩ (fun k => k == 0)
        ⟨["a", "b"]⟩).1 =
      [copy_request ⟨"us-east-1", "eu-west-1", "key-1"⟩ "a"] := by
  decide

/-- C7 (amended): if the k-th copy call is the first to fail, the error
propagates uncaught and no copy request is issued for any subsequent
entry; exactly the failing entry and the entries preceding it have had
copy requests issued, in list order. -/
theorem spec_C7 (env : ReplicatorEnv) (raises : Nat → Bool) (event : ReplicatorEvent)
    (k : Nat) (hk : k < event.resources.length)
    (hfail : raises k = true)
    (hbefore : ∀ j, j < k → raises j = false) :
    lambda_handler_exc env raises event =
      ((event.resources.take (k + 1)).map (copy_request env), some k) := by
  have h := run_loop_first_raise env raises event.resources 0 k hk
    (by simpa using hfail) (fun j hj => by simpa using hbefore j hj)
  simpa [lambda_handler_exc] using h

/-- Witness for the amended C7: three entries, the second call fails. -/
theorem spec_C7_witness :
    lambda_handler_exc ⟨"us-east-1", "eu-west-1", "key-1"⟩ (fun k => k == 1)
        ⟨["a", "b", "c"]⟩ =
      ((List.take 2 ["a", "b", "c"]).map
        (copy_request ⟨"us-east-1", "eu-west-1", "key-1"⟩), some 1) :=
  spec_C7 ⟨"us-east-1", "eu-west-1", "key-1"⟩ (fun k => k == 1) ⟨["a", "b", "c"]⟩ 1
    (by decide) (by decide) (by decide)

end RdsCrossRegionCopy
